import Mathlib

/-!
# Verification of the ctuner multi-pitch / accordion detection core

A shallow embedding, in Lean 4, of the spec-relevant parts of the Python
sources `ctuner/multi_pitch_detector.py`, `ctuner/accordion.py` and
`ctuner/temperaments.py`.

Modelling conventions:

* Machine floats are idealised as exact rationals (`ℚ`); the single place
  where an irrational value is genuinely produced (the equal-tempered
  frequency `reference * 2 ^ ((note - 57) / 12)` in
  `MultiPitchDetector._get_reference_frequency`) is modelled over `ℝ`.
* `numpy.log2` is transcendental, so the peak-selection stage takes the
  binary logarithm as an explicit function parameter `log2 : ℚ → ℚ`;
  theorems quantify over it (adding, where a statement needs it, the
  algebraic law of the real `log2` that the proof uses).
* The windowed DFT / phase-vocoder stage (Hamming window, `np.fft.rfft`,
  `np.angle`, the `qpd` unwrap with `π`) produces transcendental arrays; it
  is abstracted as an oracle producing the per-bin magnitude (`xa`), phase
  (`xq`) and refined frequency (`xf`) arrays that the rest of `process`
  consumes.  All peak-selection theorems quantify over these arrays.
* Python `int` is `ℤ`; Python `%` on a positive modulus is `Int.emod`,
  Python `//` is `Int.fdiv`; both agree with Python on the values reached.
* Python lists / numpy 1-d arrays are `List ℚ`; a numpy operation that can
  raise (the broadcasting slice assignment in `process`) is `Option`-valued.
-/

namespace CTuner

/-! ## Constants (`ctuner/constants.py` and module constants of
`ctuner/multi_pitch_detector.py`) -/

def SAMPLE_RATE : ℕ := 11025
def BUFFER_SIZE : ℕ := 1024
def A4_REFERENCE : ℚ := 440
def C5_OFFSET : ℤ := 57
def A_OFFSET : ℤ := 9
def OCTAVE : ℤ := 12

def NOTE_NAMES : List String :=
  ["C", "C#", "D", "Eb", "E", "F", "F#", "G", "Ab", "A", "Bb", "B"]

def K_SAMPLES : ℕ := 16384
def K_STEP : ℕ := 1024
def K_MAXIMA : ℕ := 8
def K_MIN : ℚ := 1/2
def K_SCALE : ℚ := 2048

/-! ## Python `round`

`MultiPitchDetector.process` computes `note = int(round(cf)) + C5_OFFSET`
where `cf` is a `numpy.float64`.  Both `float.__round__` and
`numpy.float64.__round__` round half to even (banker's rounding); `int(...)`
then truncates an exact integral float, which is the identity.  `pyRound`
is that composite on the idealised rationals. -/

def pyRound (q : ℚ) : ℤ :=
  let f := ⌊q⌋
  if q - f < 1/2 then f
  else if 1/2 < q - f then f + 1
  else if 2 ∣ f then f else f + 1

/-- The cents-to-note mapping of the peak selector:
`note = int(round(cf)) + C5_OFFSET`. -/
def noteFromCf (cf : ℚ) : ℤ := pyRound cf + C5_OFFSET

/-! ## Python `abs` and `max` (`np.abs`, `np.max` over a nonempty array)

Written with explicit conditionals (rather than Mathlib's lattice `|·|` and
`⊔`) so that concrete runs of the pipeline reduce; the bridging lemmas show
they are the mathematical absolute value and maximum. -/

def pyAbsQ (q : ℚ) : ℚ := if q < 0 then -q else q

def pyAbsZ (i : ℤ) : ℤ := if i < 0 then -i else i

def qmax (a b : ℚ) : ℚ := if a ≤ b then b else a

def pyMax (l : List ℚ) : ℚ :=
  match l with
  | [] => 0
  | x :: xs => xs.foldl qmax x

def pyMaxAbs (l : List ℚ) : ℚ := pyMax (l.map pyAbsQ)

/-! ## Temperaments (`ctuner/temperaments.py`)

The 32 presets of the `Temperament` IntEnum, in the C++ ordering, and the
`TEMPERAMENT_RATIOS` table: for each preset, twelve frequency ratios
relative to the tonic (C, C#, D, Eb, E, F, F#, G, Ab, A, Bb, B).  The float
literals of the source are read as exact rationals. -/

inductive Temperament where
  | KIRNBERGER_II
  | KIRNBERGER_III
  | WERCKMEISTER_III
  | WERCKMEISTER_IV
  | WERCKMEISTER_V
  | WERCKMEISTER_VI
  | BACH_KLAIS
  | JUST_BARBOUR
  | EQUAL
  | PYTHAGOREAN
  | VAN_ZWOLLE
  | MEANTONE_1_4
  | SILBERMANN_1_6
  | SALINAS_1_3
  | ZARLINO_2_7
  | ROSSI_1_5
  | ROSSI_2_9
  | RAMEAU_1_4
  | KELLNER
  | VALLOTTI
  | YOUNG_II
  | BENDELER_III
  | NEIDHARDT_I
  | NEIDHARDT_II
  | NEIDHARDT_III
  | BRUDER_1829
  | BARNES_1977
  | LAMBERT_1774
  | SCHLICK_VOGEL
  | MEANTONE_SHARP_1_4
  | MEANTONE_FLAT_1_4
  | LEHMAN_BACH
deriving DecidableEq, Fintype, Repr

def TEMPERAMENT_RATIOS : Temperament → List ℚ
  | .KIRNBERGER_II =>
      [1.000000000, 1.053497163, 1.125000000, 1.185185185,
       1.250000000, 1.333333333, 1.406250000, 1.500000000,
       1.580245745, 1.677050983, 1.777777778, 1.875000000]
  | .KIRNBERGER_III =>
      [1.000000000, 1.053497163, 1.118033989, 1.185185185,
       1.250000000, 1.333333333, 1.406250000, 1.495348781,
       1.580245745, 1.671850762, 1.777777778, 1.875000000]
  | .WERCKMEISTER_III =>
      [1.000000000, 1.053497942, 1.117403309, 1.185185185,
       1.252827249, 1.333333333, 1.404663923, 1.494926960,
       1.580246914, 1.670436332, 1.777777778, 1.879240873]
  | .WERCKMEISTER_IV =>
      [1.000000000, 1.048750012, 1.119929822, 1.185185185,
       1.254242806, 1.333333333, 1.404663923, 1.493239763,
       1.573125018, 1.672323742, 1.785826183, 1.872885231]
  | .WERCKMEISTER_V =>
      [1.000000000, 1.057072991, 1.125000000, 1.189207115,
       1.257078722, 1.337858004, 1.414213562, 1.500000000,
       1.580246914, 1.681792831, 1.783810673, 1.885618083]
  | .WERCKMEISTER_VI =>
      [1.000000000, 1.053497942, 1.114163307, 1.187481762,
       1.255862545, 1.333333333, 1.410112936, 1.497099016,
       1.580246914, 1.674483394, 1.781222643, 1.883793818]
  | .BACH_KLAIS =>
      [262.76 / 440.0 * 1.681792831, 276.87 / 440.0 * 1.681792831,
       294.30 / 440.0 * 1.681792831, 311.46 / 440.0 * 1.681792831,
       328.70 / 440.0 * 1.681792831, 350.37 / 440.0 * 1.681792831,
       369.18 / 440.0 * 1.681792831, 393.70 / 440.0 * 1.681792831,
       415.30 / 440.0 * 1.681792831, 1.0,
       467.18 / 440.0 * 1.681792831, 492.26 / 440.0 * 1.681792831]
  | .JUST_BARBOUR =>
      [264.00 / 440.0 * 1.681792831, 275.00 / 440.0 * 1.681792831,
       297.00 / 440.0 * 1.681792831, 316.80 / 440.0 * 1.681792831,
       330.00 / 440.0 * 1.681792831, 352.00 / 440.0 * 1.681792831,
       371.25 / 440.0 * 1.681792831, 396.00 / 440.0 * 1.681792831,
       412.50 / 440.0 * 1.681792831, 1.0,
       475.20 / 440.0 * 1.681792831, 495.00 / 440.0 * 1.681792831]
  | .EQUAL =>
      [1.000000000, 1.059463094, 1.122462048, 1.189207115,
       1.259921050, 1.334839854, 1.414213562, 1.498307077,
       1.587401052, 1.681792831, 1.781797436, 1.887748625]
  | .PYTHAGOREAN =>
      [1.000000000, 1.067871094, 1.125000000, 1.185185185,
       1.265625000, 1.333333333, 1.423828125, 1.500000000,
       1.601806641, 1.687500000, 1.777777778, 1.898437500]
  | .VAN_ZWOLLE =>
      [1.000000000, 1.053497942, 1.125000000, 1.185185185,
       1.265625000, 1.333333333, 1.404663923, 1.500000000,
       1.580246914, 1.687500000, 1.777777778, 1.898437500]
  | .MEANTONE_1_4 =>
      [1.000000000, 1.044906727, 1.118033989, 1.196279025,
       1.250000000, 1.337480610, 1.397542486, 1.495348781,
       1.562500000, 1.671850762, 1.788854382, 1.869185977]
  | .SILBERMANN_1_6 =>
      [1.000000000, 1.052506113, 1.120351187, 1.192569588,
       1.255186781, 1.336096753, 1.406250000, 1.496897583,
       1.575493856, 1.677050983, 1.785154534, 1.878886059]
  | .SALINAS_1_3 =>
      [1.000000000, 1.037362210, 1.115721583, 1.200000000,
       1.244834652, 1.338865900, 1.388888889, 1.493801582,
       1.549613310, 1.666666667, 1.792561899, 1.859535972]
  | .ZARLINO_2_7 =>
      [1.000000000, 1.041666667, 1.117042372, 1.197872314,
       1.247783660, 1.338074130, 1.393827219, 1.494685500,
       1.556964062, 1.669627036, 1.790442378, 1.865044144]
  | .ROSSI_1_5 =>
      [1.000000000, 1.049459749, 1.119423732, 1.194051981,
       1.253109491, 1.336650124, 1.402760503, 1.496277870,
       1.570283397, 1.674968957, 1.786633554, 1.875000000]
  | .ROSSI_2_9 =>
      [1.000000000, 1.047433739, 1.118805855, 1.195041266,
       1.251726541, 1.337019165, 1.400438983, 1.495864870,
       1.566819334, 1.673582375, 1.787620248, 1.872413760]
  | .RAMEAU_1_4 =>
      [1.000000000, 1.051417112, 1.118033989, 1.179066456,
       1.250000000, 1.337480610, 1.401889482, 1.495348781,
       1.577125668, 1.671850762, 1.775938357, 1.869185977]
  | .KELLNER =>
      [1.000000000, 1.053497942, 1.118918532, 1.185185185,
       1.251978681, 1.333333333, 1.404663923, 1.495940194,
       1.580246914, 1.673835206, 1.777777778, 1.877968022]
  | .VALLOTTI =>
      [1.000000000, 1.055879962, 1.119929822, 1.187864958,
       1.254242806, 1.336348077, 1.407839950, 1.496616064,
       1.583819943, 1.676104963, 1.781797436, 1.877119933]
  | .YOUNG_II =>
      [1.000000000, 1.053497942, 1.119929822, 1.185185185,
       1.254242806, 1.333333333, 1.404663923, 1.496616064,
       1.580246914, 1.676104963, 1.777777778, 1.877119933]
  | .BENDELER_III =>
      [1.000000000, 1.057072991, 1.117403309, 1.185185185,
       1.257078722, 1.333333333, 1.409430655, 1.494926960,
       1.585609487, 1.676104963, 1.777777778, 1.879240873]
  | .NEIDHARDT_I =>
      [1.000000000, 1.055879962, 1.119929822, 1.186524315,
       1.254242806, 1.333333333, 1.407839950, 1.496616064,
       1.583819943, 1.676104963, 1.777777778, 1.879240873]
  | .NEIDHARDT_II =>
      [1.000000000, 1.057072991, 1.119929822, 1.187864958,
       1.255659964, 1.334839854, 1.411023157, 1.496616064,
       1.583819943, 1.676104963, 1.781797436, 1.883489946]
  | .NEIDHARDT_III =>
      [1.000000000, 1.057072991, 1.119929822, 1.187864958,
       1.255659964, 1.333333333, 1.411023157, 1.496616064,
       1.583819943, 1.676104963, 1.779786472, 1.883489946]
  | .BRUDER_1829 =>
      [1.000000000, 1.056476308, 1.124364975, 1.187194447,
       1.253534828, 1.334086381, 1.409032810, 1.499576590,
       1.583819943, 1.678946488, 1.779786472, 1.879240873]
  | .BARNES_1977 =>
      [1.000000000, 1.055879962, 1.119929822, 1.187864958,
       1.254242806, 1.336348077, 1.407839950, 1.496616064,
       1.583819943, 1.676104963, 1.781797436, 1.881364210]
  | .LAMBERT_1774 =>
      [1.000000000, 1.055539344, 1.120652732, 1.187481762,
       1.255862545, 1.335916983, 1.407385792, 1.497099016,
       1.583309016, 1.677728102, 1.781222643, 1.880150581]
  | .SCHLICK_VOGEL =>
      [1.000000000, 1.050646611, 1.118918532, 1.185185185,
       1.251978681, 1.336951843, 1.400862148, 1.495940194,
       1.575969916, 1.673835206, 1.782602458, 1.872885231]
  | .MEANTONE_SHARP_1_4 =>
      [1.000000000, 1.044906727, 1.118033989, 1.168241235,
       1.250000000, 1.337480610, 1.397542486, 1.495348781,
       1.562500000, 1.671850762, 1.746928107, 1.869185977]
  | .MEANTONE_FLAT_1_4 =>
      [1.000000000, 1.069984488, 1.118033989, 1.196279025,
       1.250000000, 1.337480610, 1.431083506, 1.495348781,
       1.600000000, 1.671850762, 1.788854382, 1.869185977]
  | .LEHMAN_BACH =>
      [1.000000000, 1.058267368, 1.119929822, 1.187864958,
       1.254242806, 1.336348077, 1.411023157, 1.496616064,
       1.585609487, 1.676104963, 1.779786472, 1.881364210]

/-- List indexing `ratios[n]` for the (always in-range) indices computed by
`_get_reference_frequency`; out-of-range reads default to `0`. -/
def ratioAt (t : Temperament) (i : ℤ) : ℚ :=
  (TEMPERAMENT_RATIOS t).getD i.toNat 0

/-! ## Reference mapper (`MultiPitchDetector._get_reference_frequency`)

The only genuinely irrational quantity of the pipeline:
`equal_freq = reference * 2 ** (semitones_from_a4 / 12)` with a fractional
real exponent, hence the `ℝ`-valued model.  `key` is the detector's `key`
attribute (an `int`, kept in `0..11` by `set_key`), `note` the `int` note
index. -/

noncomputable def getReferenceFrequency (t : Temperament) (key : ℤ)
    (reference : ℝ) (note : ℤ) : ℝ :=
  let note_in_octave := note % OCTAVE
  let n := (note_in_octave - key + OCTAVE) % OCTAVE
  let a := (A_OFFSET - key + OCTAVE) % OCTAVE
  let temper_ratio := ratioAt t n / ratioAt t a
  let equal_ratio := ratioAt .EQUAL n / ratioAt .EQUAL a
  let temper_adjust := temper_ratio / equal_ratio
  let semitones_from_a4 : ℤ := note - C5_OFFSET
  let equal_freq := reference * (2 : ℝ) ^ (((semitones_from_a4 : ℝ)) / 12)
  equal_freq * (temper_adjust : ℝ)

/-! ## Result data model (`Maximum`, `MultiPitchResult`) -/

structure Maximum where
  frequency : ℚ := 0
  ref_frequency : ℚ := 0
  note : ℤ := 0
  cents : ℚ := 0
  note_name : String := ""
  octave : ℤ := 0
  magnitude : ℚ := 0
deriving DecidableEq, Repr

structure MultiPitchResult where
  maxima : List Maximum := []
  primary_frequency : ℚ := 0
  primary_note : ℤ := 0
  primary_cents : ℚ := 0
  valid : Bool := false
deriving DecidableEq, Repr

/-! ## Peak selector (the maxima-finding loop of `MultiPitchDetector.process`)

The loop consumes the magnitude array `xa` and the vocoder-refined frequency
array `xf` (both of length `range`), modelled as functions on bin indices, a
`log2` oracle for `numpy.log2`, and a `refFreq` oracle standing for
`self._get_reference_frequency` (whose exact value is irrational; see
`getReferenceFrequency` above for its own verification).  Each accepted
`Maximum` is paired with the bin index `i` it was detected at. -/

structure PitchConfig where
  reference : ℚ := A4_REFERENCE
  fundamental_filter : Bool := false
  downsample : Bool := false
  octave_filter : Bool := true
  rng : ℕ := K_SAMPLES * 7 / 16
deriving DecidableEq, Repr

/-- `dxa[i] = xa[i] - xa[i-1]` for `1 ≤ i < range`, `0` outside (the numpy
array is zero-initialised and only bins `1..range-1` are filled in). -/
def dxaOf (xa : ℕ → ℚ) (rng : ℕ) (i : ℕ) : ℚ :=
  if 1 ≤ i ∧ i < rng then xa i - xa (i - 1) else 0

/-- The fundamental-filter skip test: with the filter enabled and a first
maximum already accepted, a candidate is skipped unless its pitch class
equals the first maximum's. -/
def fundSkip (filter_on : Bool) (note : ℤ) (acc : List (ℕ × Maximum)) : Bool :=
  filter_on &&
    (match acc with
     | (_, m0) :: _ => note % OCTAVE != m0.note % OCTAVE
     | [] => false)

/-- One pass of the `for i in range(1, self.range - 1)` loop.  `fuel` bounds
the number of remaining iterations (started at `range`, an upper bound, so
the `fuel = 0` case is never reached); `i` is the loop index, `limit` the
dynamic harmonic cap, `acc` the accepted `(bin, Maximum)` list. -/
def peakScanAux (c : PitchConfig) (log2 : ℚ → ℚ) (refFreq : ℤ → ℚ)
    (xa xf : ℕ → ℚ) (maxVal : ℚ) :
    ℕ → ℕ → ℕ → List (ℕ × Maximum) → List (ℕ × Maximum)
  | 0, _, _, acc => acc
  | fuel + 1, i, limit, acc =>
    if c.rng - 1 ≤ i then acc                     -- for-loop upper bound
    else if limit ≤ i then acc                    -- `if i >= limit: break`
    else if K_MAXIMA ≤ acc.length then acc        -- `if len(maxima) >= K_MAXIMA: break`
    else if xa i ≤ K_MIN ∨ xa i ≤ maxVal / 4 then -- threshold gate
      peakScanAux c log2 refFreq xa xf maxVal fuel (i + 1) limit acc
    else if c.rng - 1 ≤ i then                    -- `if i >= len(dxa) - 1: continue`
      peakScanAux c log2 refFreq xa xf maxVal fuel (i + 1) limit acc
    else if dxaOf xa c.rng i ≤ 0 ∨ 0 ≤ dxaOf xa c.rng (i + 1) then
      peakScanAux c log2 refFreq xa xf maxVal fuel (i + 1) limit acc
    else if xf i ≤ 0 then
      peakScanAux c log2 refFreq xa xf maxVal fuel (i + 1) limit acc
    else
      -- `cf = -12.0 * np.log2(self.reference / xf[i])`; the `np.isnan(cf)`
      -- skip cannot fire in the idealised model (no NaN values).
      let cf := -12 * log2 (c.reference / xf i)
      let note := noteFromCf cf
      if note < 0 then
        peakScanAux c log2 refFreq xa xf maxVal fuel (i + 1) limit acc
      else if fundSkip c.fundamental_filter note acc then
        peakScanAux c log2 refFreq xa xf maxVal fuel (i + 1) limit acc
      else
        let ref := refFreq note
        let cents := if 0 < ref then 1200 * log2 (xf i / ref) else 0
        let m : Maximum :=
          { frequency := xf i, ref_frequency := ref, note := note, cents := cents,
            note_name := NOTE_NAMES.getD (note % OCTAVE).toNat "",
            octave := note.fdiv OCTAVE, magnitude := xa i }
        let limit' := if c.octave_filter = true ∧ c.downsample = false ∧ i * 2 < limit
          then i * 2 - 1 else limit
        peakScanAux c log2 refFreq xa xf maxVal fuel (i + 1) limit' (acc ++ [(i, m)])

/-- The accepted maxima of one `process` call, with their detection bins:
the `np.max(xa) < K_MIN` early return followed by the scan loop. -/
def detectBins (c : PitchConfig) (log2 : ℚ → ℚ) (refFreq : ℤ → ℚ)
    (xa xf : ℕ → ℚ) : List (ℕ × Maximum) :=
  let maxVal := pyMax ((List.range c.rng).map xa)
  if maxVal < K_MIN then []
  else peakScanAux c log2 refFreq xa xf maxVal c.rng 1 (c.rng - 1) []

/-- The `MultiPitchResult` built by `process` from the accepted maxima. -/
def processSpectrum (c : PitchConfig) (log2 : ℚ → ℚ) (refFreq : ℤ → ℚ)
    (xa xf : ℕ → ℚ) : MultiPitchResult :=
  match detectBins c log2 refFreq xa xf with
  | [] => {}
  | bins@((_, primary) :: _) =>
      { maxima := bins.map Prod.snd,
        primary_frequency := primary.frequency,
        primary_note := primary.note,
        primary_cents := primary.cents,
        valid := true }

/-! ## Detector state (`MultiPitchDetector.__init__` / `reset` / setters)

The attributes `range`, `oversample`, `fps` and `expect` of the Python
object are pure functions of the four constructor arguments, never mutated;
they are modelled as the derived function `rngOf` (the others only feed the
vocoder stage, which is behind the spectral oracle). -/

structure Detector where
  sample_rate : ℕ
  fft_size : ℕ
  hop_size : ℕ
  reference : ℚ
  temperament : Temperament
  key : ℤ
  fundamental_filter : Bool
  downsample : Bool
  octave_filter : Bool
  buffer : List ℚ
  prev_phase : List ℚ
  dmax : ℚ
deriving DecidableEq, Repr

def rngOf (d : Detector) : ℕ := d.fft_size * 7 / 16

/-- `MultiPitchDetector.__init__`. -/
def mkDetector (sample_rate fft_size hop_size : ℕ) (reference : ℚ) : Detector :=
  { sample_rate := sample_rate, fft_size := fft_size, hop_size := hop_size,
    reference := reference, temperament := .EQUAL, key := 0,
    fundamental_filter := false, downsample := false, octave_filter := true,
    buffer := List.replicate fft_size 0,
    prev_phase := List.replicate (fft_size * 7 / 16) 0,
    dmax := 1/8 }

def set_reference (d : Detector) (freq : ℚ) : Detector := { d with reference := freq }

def set_temperament (d : Detector) (t : Temperament) : Detector := { d with temperament := t }

def set_key (d : Detector) (key : ℤ) : Detector := { d with key := key % OCTAVE }

def set_fundamental_filter (d : Detector) (enabled : Bool) : Detector :=
  { d with fundamental_filter := enabled }

def set_downsample (d : Detector) (enabled : Bool) : Detector :=
  { d with downsample := enabled }

def set_octave_filter (d : Detector) (enabled : Bool) : Detector :=
  { d with octave_filter := enabled }

/-- `MultiPitchDetector.reset`: in-place `fill(0)` of the two arrays
(length preserved) and `_dmax = 0.125`. -/
def reset (d : Detector) : Detector :=
  { d with buffer := d.buffer.map (fun _ => 0),
           prev_phase := d.prev_phase.map (fun _ => 0),
           dmax := 1/8 }

/-- The buffer update of `process`:
`shift = min(len(samples), fft_size); buffer = np.roll(buffer, -shift)` then
either `buffer[:] = samples[-fft_size:]` (when `len(samples) >= fft_size`)
or `buffer[-len(samples):] = samples`.  For an empty input the latter slice
is `buffer[-0:] = buffer[0:]`, the whole frame, and numpy fails to
broadcast a length-0 array into it (`ValueError`), modelled as `none`. -/
def updateBuffer (fft_size : ℕ) (buffer samples : List ℚ) : Option (List ℚ) :=
  let shift := min samples.length fft_size
  let rolled := buffer.drop shift ++ buffer.take shift
  if fft_size ≤ samples.length then
    some (samples.drop (samples.length - fft_size))
  else if samples.length = 0 then
    if rolled.isEmpty then some rolled else none
  else
    some (rolled.take (rolled.length - samples.length) ++ samples)

/-- The (transcendental) windowed-DFT / phase-vocoder stage: from the
normalized frame, the per-bin magnitude `xa = |X[k]|/K_SCALE`, phase
`xq = arg X[k]` and refined frequency `xf` arrays. -/
structure SpectralData where
  xa : ℕ → ℚ
  xq : ℕ → ℚ
  xf : ℕ → ℚ

def configOf (d : Detector) : PitchConfig :=
  { reference := d.reference, fundamental_filter := d.fundamental_filter,
    downsample := d.downsample, octave_filter := d.octave_filter,
    rng := rngOf d }

/-- `MultiPitchDetector.process` as a state transformer: buffer update,
one-frame-lag normalization (`norm = self._dmax` is the *previous* peak;
the current peak is stored for the next call), the spectral stage (behind
the oracle `spectral`), the `prev_phase` save, and the peak scan. -/
def processFull (spectral : List ℚ → SpectralData) (log2 : ℚ → ℚ)
    (refFreq : ℤ → ℚ) (d : Detector) (samples : List ℚ) :
    Option (Detector × MultiPitchResult) :=
  match updateBuffer d.fft_size d.buffer samples with
  | none => none
  | some buf =>
    let dmax0 := pyMaxAbs buf
    let dmax := if dmax0 < 1/8 then 1/8 else dmax0
    let norm := d.dmax
    let frame := buf.map (fun x => x / norm)
    let sd := spectral frame
    let d' := { d with buffer := buf, dmax := dmax,
                       prev_phase := (List.range (rngOf d)).map sd.xq }
    some (d', processSpectrum (configOf d) log2 refFreq sd.xa sd.xf)

/-! ## Accordion layer (`ctuner/accordion.py`)

`ReedInfo`, `AccordionResult` (the display-only `spectrum_data` field is
omitted), the reed grouper and the accordion `process` step that consumes a
`MultiPitchResult`.  Python's stable ascending `list.sort` is modelled with
`List.insertionSort`. -/

structure ReedInfo where
  frequency : ℚ := 0
  cents : ℚ := 0
  magnitude : ℚ := 0
deriving DecidableEq, Repr, Inhabited

structure AccordionResult where
  valid : Bool := false
  note_name : String := ""
  octave : ℤ := 0
  ref_frequency : ℚ := 0
  reeds : List ReedInfo := []
  beat_frequencies : List ℚ := []
deriving DecidableEq, Repr

/-- `cents_from_ref` of `AccordionDetector._group_reeds`. -/
def reedCents (log2 : ℚ → ℚ) (primary m : Maximum) : ℚ :=
  if 0 < primary.ref_frequency then 1200 * log2 (m.frequency / primary.ref_frequency)
  else m.cents

/-- The accumulating loop of `_group_reeds`. -/
def groupReedsAux (log2 : ℚ → ℚ) (max_reeds : ℕ) (spread : ℚ) (primary : Maximum) :
    List Maximum → List ReedInfo → List ReedInfo
  | [], reeds => reeds
  | m :: rest, reeds =>
    if max_reeds ≤ reeds.length then reeds
    else if 1 < pyAbsZ (m.note - primary.note) then
      groupReedsAux log2 max_reeds spread primary rest reeds
    else
      let c := reedCents log2 primary m
      if spread < pyAbsQ c then groupReedsAux log2 max_reeds spread primary rest reeds
      else groupReedsAux log2 max_reeds spread primary rest
        (reeds ++ [{ frequency := m.frequency, cents := c, magnitude := m.magnitude }])

def reedLE (a b : ReedInfo) : Prop := a.frequency ≤ b.frequency

instance : DecidableRel reedLE := fun a b => inferInstanceAs (Decidable (a.frequency ≤ b.frequency))

instance : IsTotal ReedInfo reedLE := ⟨fun a b => le_total a.frequency b.frequency⟩

instance : IsTrans ReedInfo reedLE := ⟨fun _ _ _ h h' => le_trans h h'⟩

/-- `AccordionDetector._group_reeds`. -/
def groupReeds (log2 : ℚ → ℚ) (max_reeds : ℕ) (spread : ℚ) :
    List Maximum → List ReedInfo
  | [] => []
  | maxima@(primary :: _) =>
      List.insertionSort reedLE (groupReedsAux log2 max_reeds spread primary maxima [])

/-- `AccordionDetector.process`, from the inner detector's result onwards
(the spectrum-display computation is omitted). -/
def accordionProcess (log2 : ℚ → ℚ) (max_reeds : ℕ) (spread : ℚ)
    (multi_result : MultiPitchResult) : AccordionResult :=
  if multi_result.valid = false ∨ multi_result.maxima = [] then {}
  else
    let reeds := groupReeds log2 max_reeds spread multi_result.maxima
    if reeds = [] then {}
    else
      let beat_freqs := (List.range (reeds.length - 1)).map
        (fun i => pyAbsQ ((reeds.getD i default).frequency - (reeds.getD (i + 1) default).frequency))
      match multi_result.maxima with
      | [] => {}
      | primary :: _ =>
          { valid := true, note_name := primary.note_name, octave := primary.octave,
            ref_frequency := primary.ref_frequency, reeds := reeds,
            beat_frequencies := beat_freqs }

/-! ## The missing `set_min_magnitude` (`AccordionDetector.__init__`)

`AccordionDetector.__init__` ends with `self._detector.set_min_magnitude(0.1)`
and `set_sensitivity` calls `self._detector.set_min_magnitude(...)`, but the
`MultiPitchDetector` class defines no such method, so Python raises
`AttributeError` at the attribute lookup.  The method set below is the
complete list of methods defined by `class MultiPitchDetector`. -/

def multiPitchDetectorMethods : List String :=
  ["__init__", "process", "_get_reference_frequency", "set_reference",
   "set_temperament", "set_key", "set_fundamental_filter", "set_downsample",
   "set_octave_filter", "reset"]

structure AccordionState where
  sample_rate : ℕ
  reference : ℚ
  max_reeds : ℕ
  reed_spread_cents : ℚ
  detector : Detector
deriving DecidableEq, Repr

/-- `AccordionDetector.__init__(sample_rate, reference, max_reeds,
reed_spread_cents)`: builds the inner detector, calls
`set_octave_filter(False)` and then `set_min_magnitude(0.1)`; the last call
is an attribute lookup that fails. -/
def accordionInit (sample_rate : ℕ) (reference : ℚ) (max_reeds : ℕ)
    (reed_spread_cents : ℚ) : Except String AccordionState :=
  let d := mkDetector sample_rate K_SAMPLES K_STEP reference
  if multiPitchDetectorMethods.contains "set_octave_filter" then
    let d := set_octave_filter d false
    if multiPitchDetectorMethods.contains "set_min_magnitude" then
      Except.ok { sample_rate := sample_rate, reference := reference,
                  max_reeds := min (max 1 max_reeds) 4,
                  reed_spread_cents := reed_spread_cents, detector := d }
    else
      Except.error "AttributeError: MultiPitchDetector object has no attribute set_min_magnitude"
  else
    Except.error "AttributeError: MultiPitchDetector object has no attribute set_octave_filter"

/-! ## Trivial oracle instances used by witnesses -/

def zeroSpectral : List ℚ → SpectralData := fun _ => ⟨fun _ => 0, fun _ => 0, fun _ => 0⟩

def zeroLog : ℚ → ℚ := fun _ => 0

def zeroRef : ℤ → ℚ := fun _ => 0

/-- A concrete A4 peak and the valid multi-pitch result holding it, used by
witnesses. -/
def mW : Maximum :=
  { frequency := 440, ref_frequency := 440, note := 57, cents := 0,
    note_name := "A", octave := 4, magnitude := 1 }

def mresW : MultiPitchResult :=
  { maxima := [mW], primary_frequency := 440, primary_note := 57,
    primary_cents := 0, valid := true }

/-! ## Helper lemmas -/

theorem pyAbsQ_eq_abs (q : ℚ) : pyAbsQ q = |q| := by
  unfold pyAbsQ
  split
  · exact (abs_of_neg (by assumption)).symm
  · exact (abs_of_nonneg (le_of_not_lt (by assumption))).symm

theorem pyAbsZ_eq_abs (i : ℤ) : pyAbsZ i = |i| := by
  unfold pyAbsZ
  split
  · exact (abs_of_neg (by assumption)).symm
  · exact (abs_of_nonneg (le_of_not_lt (by assumption))).symm

theorem qmax_eq_max (a b : ℚ) : qmax a b = max a b := by
  unfold qmax
  split
  · exact (max_eq_right (by assumption)).symm
  · exact (max_eq_left (le_of_not_le (by assumption))).symm

/-- Every entry of the 32-entry ratio table is positive. -/
theorem ratios_pos (t : Temperament) : ∀ r ∈ TEMPERAMENT_RATIOS t, 0 < r := by
  cases t <;>
    · intro r hr
      simp only [TEMPERAMENT_RATIOS, List.mem_cons, List.not_mem_nil, or_false] at hr
      rcases hr with rfl | rfl | rfl | rfl | rfl | rfl | rfl | rfl | rfl | rfl | rfl | rfl <;>
        norm_num

theorem ratios_length (t : Temperament) : (TEMPERAMENT_RATIOS t).length = 12 := by
  cases t <;> rfl

theorem ratioAt_pos (t : Temperament) (i : ℤ) (h0 : 0 ≤ i) (h12 : i < 12) :
    0 < ratioAt t i := by
  have hlt : i.toNat < (TEMPERAMENT_RATIOS t).length := by
    rw [ratios_length]; omega
  rw [ratioAt, List.getD_eq_getElem _ _ hlt]
  exact ratios_pos t _ (List.getElem_mem hlt)

/-! ## Claim theorems -/

/-- C4: For every note index `n ≥ 0`, temperament `t`, key `k ∈ 0..11` and
A-reference, `_get_reference_frequency` returns
`A * 2^((n-57)/12) * (T[(n mod 12 - k + 12) mod 12] / T[(9 - k + 12) mod 12])
/ (E[(n mod 12 - k + 12) mod 12] / E[(9 - k + 12) mod 12])` with `E` the
Equal vector; consequently at `n = 57` (A4) it returns the A-reference for
every temperament and key. -/
theorem referenceFrequency_formula :
    (∀ (n : ℕ) (t : Temperament) (k : Fin 12) (A : ℝ),
      getReferenceFrequency t (k : ℤ) A (n : ℤ) =
        A * (2 : ℝ) ^ (((n : ℝ) - 57) / 12) *
          ((ratioAt t (((n : ℤ) % 12 - (k : ℤ) + 12) % 12) : ℝ) /
            (ratioAt t ((9 - (k : ℤ) + 12) % 12) : ℝ)) /
          ((ratioAt .EQUAL (((n : ℤ) % 12 - (k : ℤ) + 12) % 12) : ℝ) /
            (ratioAt .EQUAL ((9 - (k : ℤ) + 12) % 12) : ℝ))) ∧
    (∀ (t : Temperament) (k : Fin 12) (A : ℝ),
      getReferenceFrequency t (k : ℤ) A 57 = A) := by
  constructor
  · intro n t k A
    unfold getReferenceFrequency
    simp only [OCTAVE, A_OFFSET, C5_OFFSET]
    push_cast
    ring
  · intro t k A
    have hnonneg : (0 : ℤ) ≤ (9 - (k : ℤ)) % 12 := Int.emod_nonneg _ (by norm_num)
    have hlt : (9 - (k : ℤ)) % 12 < 12 := Int.emod_lt_of_pos _ (by norm_num)
    have ht : ratioAt t ((9 - (k : ℤ)) % 12) ≠ 0 :=
      ne_of_gt (ratioAt_pos t _ hnonneg hlt)
    have he : ratioAt .EQUAL ((9 - (k : ℤ)) % 12) ≠ 0 :=
      ne_of_gt (ratioAt_pos .EQUAL _ hnonneg hlt)
    unfold getReferenceFrequency
    simp only [OCTAVE, A_OFFSET, C5_OFFSET]
    norm_num [div_self ht, div_self he, Real.rpow_zero]

/-- C1: Constructing an `AccordionDetector` raises `AttributeError` for
every choice of arguments: `__init__` invokes
`self._detector.set_min_magnitude(0.1)` but `MultiPitchDetector` defines no
`set_min_magnitude` method, contradicting the claim that construction and
every public operation complete without error. -/
theorem accordionInit_always_raises (sample_rate : ℕ) (reference : ℚ)
    (max_reeds : ℕ) (reed_spread_cents : ℚ) :
    accordionInit sample_rate reference max_reeds reed_spread_cents =
      Except.error
        "AttributeError: MultiPitchDetector object has no attribute set_min_magnitude" := by
  rfl

/-- C2: On a constructed analyzer (nonempty frame, positive FFT size),
`process` of an empty input block raises instead of proceeding: the slice
assignment `buffer[-0:] = samples` covers the whole frame and numpy cannot
broadcast a length-0 array into it, so the model returns `none`. -/
theorem process_empty_block_raises (spectral : List ℚ → SpectralData)
    (log2 : ℚ → ℚ) (refFreq : ℤ → ℚ) (d : Detector)
    (hfft : 0 < d.fft_size) (hbuf : d.buffer ≠ []) :
    processFull spectral log2 refFreq d [] = none := by
  have hnb : ¬ d.fft_size ≤ 0 := by omega
  have : updateBuffer d.fft_size d.buffer [] = none := by
    unfold updateBuffer
    simp only [List.length_nil, Nat.min_zero, List.drop_zero, List.take_zero,
      List.append_nil]
    rw [if_neg hnb, if_pos trivial, if_neg]
    simp [Nat.zero_min, List.isEmpty_iff, hbuf]
  unfold processFull
  rw [this]

theorem process_empty_block_raises_witness :
    0 < (mkDetector SAMPLE_RATE K_SAMPLES K_STEP A4_REFERENCE).fft_size ∧
    (mkDetector SAMPLE_RATE K_SAMPLES K_STEP A4_REFERENCE).buffer ≠ [] ∧
    processFull zeroSpectral zeroLog zeroRef
      (mkDetector SAMPLE_RATE K_SAMPLES K_STEP A4_REFERENCE) [] = none := by
  have hb : (mkDetector SAMPLE_RATE K_SAMPLES K_STEP A4_REFERENCE).buffer ≠ [] := by
    intro h
    have hlen := congrArg List.length h
    simp only [mkDetector, List.length_replicate, List.length_nil, K_SAMPLES] at hlen
    omega
  exact ⟨by decide, hb,
    process_empty_block_raises zeroSpectral zeroLog zeroRef _ (by decide) hb⟩

/-- C8 counterexample: at `cf = 1/2` the two nearest integers `0` and `1`
are both at distance exactly one half, and round-half-away-from-zero would
pick `1` (note 58); the code's `int(round(cf)) + C5_OFFSET` picks `0`
(note 57). -/
theorem noteFromCf_half_counterexample :
    (1/2 - (0 : ℚ) = 1/2 ∧ (1 : ℚ) - 1/2 = 1/2) ∧
    noteFromCf (1/2) = 57 ∧ noteFromCf (1/2) ≠ 58 := by
  refine ⟨⟨by norm_num, by norm_num⟩, ?_, ?_⟩ <;>
    · show _
      norm_num [noteFromCf, pyRound, C5_OFFSET]

/-- C8 amended: the cents-to-note rounding is round-half-to-even (Python's
`round`): at an exact half tie `n + 1/2` the chosen integer is `n` when `n`
is even and `n + 1` otherwise. -/
theorem noteFromCf_rounds_half_to_even (n : ℤ) :
    noteFromCf ((n : ℚ) + 1/2) = (if 2 ∣ n then n else n + 1) + 57 := by
  have hfloor : ⌊(n : ℚ) + 1/2⌋ = n := by
    rw [Int.floor_int_add]
    norm_num
  unfold noteFromCf pyRound C5_OFFSET
  rw [hfloor]
  norm_num

/-- C9 counterexample: `reset()` after `set_key(1)` does not restore the
freshly-constructed state (the key, like every configuration field, is left
at its mutated value). -/
theorem reset_after_setter_counterexample :
    reset (set_key (mkDetector SAMPLE_RATE K_SAMPLES K_STEP A4_REFERENCE) 1) ≠
      mkDetector SAMPLE_RATE K_SAMPLES K_STEP A4_REFERENCE := by
  intro h
  have hk := congrArg Detector.key h
  simp [reset, set_key, mkDetector, OCTAVE] at hk

/-- C9 amended: `reset()` zeroes the analysis frame and previous-phase
vector and restores the previous peak to `0.125`, leaving all configuration
fields unchanged; it therefore yields a state bit-identical to a freshly
constructed analyzer exactly when the configuration fields still hold their
construction values — in particular after any sequence of `process` calls
alone, since `process` never touches the configuration (second conjunct). -/
theorem reset_restores_fresh :
    (∀ (d : Detector) (sr fs hs : ℕ) (ref : ℚ),
      d.sample_rate = sr → d.fft_size = fs → d.hop_size = hs →
      d.reference = ref → d.temperament = .EQUAL → d.key = 0 →
      d.fundamental_filter = false → d.downsample = false →
      d.octave_filter = true → d.buffer.length = fs →
      d.prev_phase.length = fs * 7 / 16 →
      reset d = mkDetector sr fs hs ref) ∧
    (∀ (spectral : List ℚ → SpectralData) (log2 : ℚ → ℚ) (refFreq : ℤ → ℚ)
       (d : Detector) (samples : List ℚ) (out : Detector × MultiPitchResult),
      processFull spectral log2 refFreq d samples = some out →
      out.1.sample_rate = d.sample_rate ∧ out.1.fft_size = d.fft_size ∧
      out.1.hop_size = d.hop_size ∧ out.1.reference = d.reference ∧
      out.1.temperament = d.temperament ∧ out.1.key = d.key ∧
      out.1.fundamental_filter = d.fundamental_filter ∧
      out.1.downsample = d.downsample ∧
      out.1.octave_filter = d.octave_filter) := by
  constructor
  · intro d sr fs hs ref h1 h2 h3 h4 h5 h6 h7 h8 h9 hbuf hphase
    unfold reset mkDetector
    cases d
    simp only at h1 h2 h3 h4 h5 h6 h7 h8 h9 hbuf hphase ⊢
    subst h1 h2 h3 h4 h5 h6 h7 h8 h9
    congr 1
    · rw [← hbuf]
      exact List.map_const' _ 0
    · rw [← hphase]
      exact List.map_const' _ 0
  · intro spectral log2 refFreq d samples out h
    unfold processFull at h
    rcases hu : updateBuffer d.fft_size d.buffer samples with _ | buf <;> rw [hu] at h
    · exact absurd h (by simp)
    · simp only [Option.some.injEq] at h
      rw [← h]
      exact ⟨rfl, rfl, rfl, rfl, rfl, rfl, rfl, rfl, rfl⟩

theorem clamp_eq_max (q : ℚ) : (if q < 1/8 then (1/8 : ℚ) else q) = max q (1/8) := by
  split
  · exact (max_eq_right (le_of_lt (by assumption))).symm
  · exact (max_eq_left (le_of_not_lt (by assumption))).symm

/-- C6: On every (non-raising) `process` call the shifted frame `buf` is
divided by `d.dmax`, the peak stored at the end of the *previous* call
(`0.125` right after construction or `reset`, last two conjuncts), never by
the current frame's peak; and the current frame's clamped peak
`max (pyMaxAbs buf) 0.125` is stored for the next call. -/
theorem process_divides_by_previous_peak :
    (∀ (spectral : List ℚ → SpectralData) (log2 : ℚ → ℚ) (refFreq : ℤ → ℚ)
       (d : Detector) (samples : List ℚ) (out : Detector × MultiPitchResult),
      processFull spectral log2 refFreq d samples = some out →
      ∃ buf, updateBuffer d.fft_size d.buffer samples = some buf ∧
        out.1.buffer = buf ∧
        out.1.dmax = max (pyMaxAbs buf) (1/8) ∧
        out.1.prev_phase =
          (List.range (rngOf d)).map (spectral (buf.map (fun x => x / d.dmax))).xq ∧
        out.2 = processSpectrum (configOf d) log2 refFreq
          (spectral (buf.map (fun x => x / d.dmax))).xa
          (spectral (buf.map (fun x => x / d.dmax))).xf) ∧
    (∀ (sr fs hs : ℕ) (ref : ℚ), (mkDetector sr fs hs ref).dmax = 1/8) ∧
    (∀ d : Detector, (reset d).dmax = 1/8) := by
  refine ⟨?_, fun _ _ _ _ => rfl, fun _ => rfl⟩
  intro spectral log2 refFreq d samples out h
  unfold processFull at h
  rcases hu : updateBuffer d.fft_size d.buffer samples with _ | buf <;> rw [hu] at h
  · exact absurd h (by simp)
  · simp only [Option.some.injEq] at h
    subst h
    exact ⟨buf, rfl, rfl, clamp_eq_max _, rfl, rfl⟩

theorem process_divides_by_previous_peak_witness :
    (processFull zeroSpectral zeroLog zeroRef
        (mkDetector SAMPLE_RATE 4 2 A4_REFERENCE) [1, 2] =
      some (⟨SAMPLE_RATE, 4, 2, A4_REFERENCE, .EQUAL, 0, false, false, true,
             [0, 0, 1, 2], [0], 2⟩,
            ⟨[], 0, 0, 0, false⟩)) ∧
    (∃ buf, updateBuffer (mkDetector SAMPLE_RATE 4 2 A4_REFERENCE).fft_size
        (mkDetector SAMPLE_RATE 4 2 A4_REFERENCE).buffer [1, 2] = some buf ∧
      (⟨SAMPLE_RATE, 4, 2, A4_REFERENCE, .EQUAL, 0, false, false, true,
        [0, 0, 1, 2], [0], 2⟩ : Detector).buffer = buf ∧
      (⟨SAMPLE_RATE, 4, 2, A4_REFERENCE, .EQUAL, 0, false, false, true,
        [0, 0, 1, 2], [0], 2⟩ : Detector).dmax = max (pyMaxAbs buf) (1/8) ∧
      (⟨SAMPLE_RATE, 4, 2, A4_REFERENCE, .EQUAL, 0, false, false, true,
        [0, 0, 1, 2], [0], 2⟩ : Detector).prev_phase =
        (List.range (rngOf (mkDetector SAMPLE_RATE 4 2 A4_REFERENCE))).map
          (zeroSpectral (buf.map
            (fun x => x / (mkDetector SAMPLE_RATE 4 2 A4_REFERENCE).dmax))).xq ∧
      (⟨[], 0, 0, 0, false⟩ : MultiPitchResult) =
        processSpectrum (configOf (mkDetector SAMPLE_RATE 4 2 A4_REFERENCE))
          zeroLog zeroRef
          (zeroSpectral (buf.map
            (fun x => x / (mkDetector SAMPLE_RATE 4 2 A4_REFERENCE).dmax))).xa
          (zeroSpectral (buf.map
            (fun x => x / (mkDetector SAMPLE_RATE 4 2 A4_REFERENCE).dmax))).xf) :=
  ⟨by norm_num [processFull, updateBuffer, pyMaxAbs, pyMax, qmax, pyAbsQ,
      mkDetector, zeroSpectral, zeroLog, zeroRef, rngOf, configOf,
      processSpectrum, detectBins, peakScanAux, K_MIN, List.range_succ,
      Nat.min_def, List.replicate],
    process_divides_by_previous_peak.1 zeroSpectral zeroLog zeroRef
      (mkDetector SAMPLE_RATE 4 2 A4_REFERENCE) [1, 2]
      (⟨SAMPLE_RATE, 4, 2, A4_REFERENCE, .EQUAL, 0, false, false, true,
        [0, 0, 1, 2], [0], 2⟩,
       ⟨[], 0, 0, 0, false⟩)
      (by norm_num [processFull, updateBuffer, pyMaxAbs, pyMax, qmax, pyAbsQ,
        mkDetector, zeroSpectral, zeroLog, zeroRef, rngOf, configOf,
        processSpectrum, detectBins, peakScanAux, K_MIN, List.range_succ,
        Nat.min_def, List.replicate])⟩

/-- Generic invariant propagation through the peak-scan loop: any property
`P i limit acc` preserved by skipping a bin and by accepting a maximum holds
of the loop's final state. -/
theorem peakScanAux_rec (c : PitchConfig) (log2 : ℚ → ℚ) (refFreq : ℤ → ℚ)
    (xa xf : ℕ → ℚ) (maxVal : ℚ) (P : ℕ → ℕ → List (ℕ × Maximum) → Prop)
    (hskip : ∀ i limit acc, P i limit acc → P (i + 1) limit acc)
    (haccept : ∀ i limit acc, P i limit acc → i < limit → ¬ xf i ≤ 0 →
      ∀ note : ℤ, note = noteFromCf (-12 * log2 (c.reference / xf i)) →
      ¬ note < 0 →
      P (i + 1)
        (if c.octave_filter = true ∧ c.downsample = false ∧ i * 2 < limit
          then i * 2 - 1 else limit)
        (acc ++ [(i,
          { frequency := xf i,
            ref_frequency := refFreq note,
            note := note,
            cents := if 0 < refFreq note then 1200 * log2 (xf i / refFreq note) else 0,
            note_name := NOTE_NAMES.getD (note % OCTAVE).toNat "",
            octave := note.fdiv OCTAVE,
            magnitude := xa i })])) :
    ∀ (fuel i limit : ℕ) (acc : List (ℕ × Maximum)),
      P i limit acc →
      ∃ i' limit', P i' limit' (peakScanAux c log2 refFreq xa xf maxVal fuel i limit acc) := by
  intro fuel
  induction fuel with
  | zero => intro i limit acc h; exact ⟨i, limit, h⟩
  | succ fuel ih =>
    intro i limit acc h
    simp only [peakScanAux]
    by_cases h1 : c.rng - 1 ≤ i
    · rw [if_pos h1]; exact ⟨i, limit, h⟩
    rw [if_neg h1]
    by_cases h2 : limit ≤ i
    · rw [if_pos h2]; exact ⟨i, limit, h⟩
    rw [if_neg h2]
    by_cases h3 : K_MAXIMA ≤ acc.length
    · rw [if_pos h3]; exact ⟨i, limit, h⟩
    rw [if_neg h3]
    by_cases h4 : xa i ≤ K_MIN ∨ xa i ≤ maxVal / 4
    · rw [if_pos h4]; exact ih _ _ _ (hskip _ _ _ h)
    rw [if_neg h4, if_neg h1]
    by_cases h5 : dxaOf xa c.rng i ≤ 0 ∨ 0 ≤ dxaOf xa c.rng (i + 1)
    · rw [if_pos h5]; exact ih _ _ _ (hskip _ _ _ h)
    rw [if_neg h5]
    by_cases h6 : xf i ≤ 0
    · rw [if_pos h6]; exact ih _ _ _ (hskip _ _ _ h)
    rw [if_neg h6]
    by_cases h7 : noteFromCf (-12 * log2 (c.reference / xf i)) < 0
    · rw [if_pos h7]; exact ih _ _ _ (hskip _ _ _ h)
    rw [if_neg h7]
    by_cases h8 : fundSkip c.fundamental_filter
        (noteFromCf (-12 * log2 (c.reference / xf i))) acc = true
    · rw [if_pos h8]; exact ih _ _ _ (hskip _ _ _ h)
    rw [if_neg h8]
    exact ih _ _ _
      (haccept i limit acc h (lt_of_not_le h2) h6 _ rfl h7)

/-- C5: For every `Maximum` in every `process` result, with `log2` any
function satisfying the inversion law of the real binary logarithm,
`note = round(12·log2(frequency / reference)) + 57` where `round` is the
code's Python rounding and `frequency` the stored phase-refined frequency. -/
theorem result_note_from_frequency (c : PitchConfig) (log2 : ℚ → ℚ)
    (refFreq : ℤ → ℚ) (xa xf : ℕ → ℚ)
    (hlog : ∀ x : ℚ, log2 x⁻¹ = - log2 x) :
    ∀ m ∈ (processSpectrum c log2 refFreq xa xf).maxima,
      m.note = pyRound (12 * log2 (m.frequency / c.reference)) + C5_OFFSET := by
  have hdb : detectBins c log2 refFreq xa xf =
      if pyMax ((List.range c.rng).map xa) < K_MIN then []
      else peakScanAux c log2 refFreq xa xf
        (pyMax ((List.range c.rng).map xa)) c.rng 1 (c.rng - 1) [] := rfl
  have key : ∀ p ∈ detectBins c log2 refFreq xa xf,
      p.2.note = noteFromCf (-12 * log2 (c.reference / p.2.frequency)) := by
    rw [hdb]
    split
    · intro p hp; simp at hp
    · have := peakScanAux_rec c log2 refFreq xa xf
        (pyMax ((List.range c.rng).map xa))
        (fun _ _ acc => ∀ p ∈ acc,
          p.2.note = noteFromCf (-12 * log2 (c.reference / p.2.frequency)))
        (fun _ _ _ h => h)
        (fun i limit acc h _ _ note hnote _ => by
          intro p hp
          rcases List.mem_append.mp hp with hp | hp
          · exact h p hp
          · simp only [List.mem_singleton] at hp
            subst hp
            exact hnote)
        c.rng 1 (c.rng - 1) [] (by intro p hp; simp at hp)
      rcases this with ⟨i', limit', hP⟩
      exact hP
  intro m hm
  unfold processSpectrum at hm
  rcases hd : detectBins c log2 refFreq xa xf with _ | ⟨p0, rest⟩ <;> rw [hd] at hm key
  · simp at hm
  · have hm' : m ∈ List.map Prod.snd (p0 :: rest) := hm
    rcases List.mem_map.mp hm' with ⟨p, hp, rfl⟩
    have hnote := key p hp
    rw [hnote]
    unfold noteFromCf
    congr 1
    have hdiv : c.reference / p.2.frequency = (p.2.frequency / c.reference)⁻¹ := by
      rw [inv_div]
    rw [hdiv, hlog]
    ring_nf

theorem result_note_from_frequency_witness :
    (∀ x : ℚ, zeroLog x⁻¹ = - zeroLog x) ∧
    (∀ m ∈ (processSpectrum { rng := 14 } zeroLog zeroRef
        (fun i => if i = 3 then 1/10 else if i = 4 then 9/10
          else if i = 5 then 1/5 else if i = 6 then 4/5 else 0)
        (fun i => (i : ℚ))).maxima,
      m.note = pyRound (12 * zeroLog (m.frequency /
        (PitchConfig.reference { rng := 14 }))) + C5_OFFSET) :=
  ⟨by simp [zeroLog],
    result_note_from_frequency { rng := 14 } zeroLog zeroRef
      (fun i => if i = 3 then 1/10 else if i = 4 then 9/10
        else if i = 5 then 1/5 else if i = 6 then 4/5 else 0)
      (fun i => (i : ℚ)) (by simp [zeroLog])⟩

theorem pairwise_bin_bound {l : List (ℕ × Maximum)}
    (hp : List.Pairwise (fun a b => a.1 < b.1 ∧ b.1 < 2 * a.1) l) :
    ∀ p ∈ l, ∀ q ∈ l, p.1 < q.1 → q.1 < 2 * p.1 := by
  induction l with
  | nil => simp
  | cons x xs ih =>
    rcases List.pairwise_cons.mp hp with ⟨hx, hxs⟩
    intro p hp' q hq' hlt
    rcases List.mem_cons.mp hp' with rfl | hp2
    · rcases List.mem_cons.mp hq' with rfl | hq2
      · omega
      · exact (hx q hq2).2
    · rcases List.mem_cons.mp hq' with rfl | hq2
      · have := hx p hp2
        omega
      · exact ih hxs p hp2 q hq2 hlt

/-- C3: With `octave_filter` enabled and `downsample` disabled, any two
accepted maxima with detection bins `k1 < k2` satisfy `k2 < 2·k1` (the
dynamically shortened `limit` is re-checked at every later iteration); the
first conjunct ties the bins to the maxima reported by `process`. -/
theorem octave_filter_bin_bound (c : PitchConfig) (log2 : ℚ → ℚ)
    (refFreq : ℤ → ℚ) (xa xf : ℕ → ℚ)
    (hoct : c.octave_filter = true) (hds : c.downsample = false) :
    ((processSpectrum c log2 refFreq xa xf).maxima =
      (detectBins c log2 refFreq xa xf).map Prod.snd) ∧
    (∀ p ∈ detectBins c log2 refFreq xa xf,
      ∀ q ∈ detectBins c log2 refFreq xa xf,
        p.1 < q.1 → q.1 < 2 * p.1) := by
  constructor
  · unfold processSpectrum
    rcases hd : detectBins c log2 refFreq xa xf with _ | ⟨p0, rest⟩ <;> simp
  · have hdb : detectBins c log2 refFreq xa xf =
        if pyMax ((List.range c.rng).map xa) < K_MIN then []
        else peakScanAux c log2 refFreq xa xf
          (pyMax ((List.range c.rng).map xa)) c.rng 1 (c.rng - 1) [] := rfl
    rw [hdb]
    split
    · simp
    · have hrec := peakScanAux_rec c log2 refFreq xa xf
        (pyMax ((List.range c.rng).map xa))
        (fun i limit acc =>
          (∀ p ∈ acc, p.1 < i) ∧ (∀ p ∈ acc, limit ≤ 2 * p.1) ∧
          List.Pairwise (fun a b => a.1 < b.1 ∧ b.1 < 2 * a.1) acc)
        (fun i limit acc h =>
          ⟨fun p hp => Nat.lt_succ_of_lt (h.1 p hp), h.2.1, h.2.2⟩)
        (fun i limit acc h hil _ note _ _ => by
          refine ⟨?_, ?_, ?_⟩
          · intro p hp
            rcases List.mem_append.mp hp with hp | hp
            · exact Nat.lt_succ_of_lt (h.1 p hp)
            · simp only [List.mem_singleton] at hp
              subst hp
              omega
          · intro p hp
            rcases List.mem_append.mp hp with hp | hp
            · have hold := h.2.1 p hp
              split <;> omega
            · simp only [List.mem_singleton] at hp
              subst hp
              simp only []
              split
              · omega
              · rename_i hcond
                rw [not_and, not_and] at hcond
                have := hcond hoct hds
                omega
          · rw [List.pairwise_append]
            refine ⟨h.2.2, List.pairwise_singleton _ _, ?_⟩
            intro a ha b hb
            simp only [List.mem_singleton] at hb
            subst hb
            exact ⟨h.1 a ha, lt_of_lt_of_le hil (h.2.1 a ha)⟩)
        c.rng 1 (c.rng - 1) []
        ⟨by simp, by simp, List.Pairwise.nil⟩
      rcases hrec with ⟨i', limit', hP⟩
      exact pairwise_bin_bound hP.2.2

theorem octave_filter_bin_bound_witness :
    (PitchConfig.octave_filter { rng := 14 } = true ∧
     PitchConfig.downsample { rng := 14 } = false) ∧
    (∀ p ∈ detectBins { rng := 14 } zeroLog zeroRef
        (fun i => if i = 3 then 1/10 else if i = 4 then 9/10
          else if i = 5 then 1/5 else if i = 6 then 4/5 else 0)
        (fun i => (i : ℚ)),
      ∀ q ∈ detectBins { rng := 14 } zeroLog zeroRef
        (fun i => if i = 3 then 1/10 else if i = 4 then 9/10
          else if i = 5 then 1/5 else if i = 6 then 4/5 else 0)
        (fun i => (i : ℚ)),
        p.1 < q.1 → q.1 < 2 * p.1) :=
  ⟨⟨rfl, rfl⟩,
    (octave_filter_bin_bound { rng := 14 } zeroLog zeroRef
      (fun i => if i = 3 then 1/10 else if i = 4 then 9/10
        else if i = 5 then 1/5 else if i = 6 then 4/5 else 0)
      (fun i => (i : ℚ)) rfl rfl).2⟩

theorem getD_map_range (n i : ℕ) (f : ℕ → ℚ) (h : i < n) :
    (((List.range n).map f).getD i 0) = f i := by
  rw [List.getD_eq_getElem?_getD, List.getElem?_map, List.getElem?_range h]
  rfl

/-- Every reed produced by the grouping loop either was already in the
accumulator or comes from an input maximum that passed both filters. -/
theorem groupReedsAux_mem (log2 : ℚ → ℚ) (max_reeds : ℕ) (spread : ℚ)
    (primary : Maximum) :
    ∀ (ms : List Maximum) (reeds : List ReedInfo) (r : ReedInfo),
      r ∈ groupReedsAux log2 max_reeds spread primary ms reeds →
      r ∈ reeds ∨ ∃ m ∈ ms,
        r.frequency = m.frequency ∧ r.magnitude = m.magnitude ∧
        r.cents = reedCents log2 primary m ∧
        pyAbsZ (m.note - primary.note) ≤ 1 ∧
        pyAbsQ (reedCents log2 primary m) ≤ spread := by
  intro ms
  induction ms with
  | nil => intro reeds r hr; exact Or.inl hr
  | cons m rest ih =>
    intro reeds r hr
    simp only [groupReedsAux] at hr
    by_cases h1 : max_reeds ≤ reeds.length
    · rw [if_pos h1] at hr; exact Or.inl hr
    rw [if_neg h1] at hr
    by_cases h2 : 1 < pyAbsZ (m.note - primary.note)
    · rw [if_pos h2] at hr
      rcases ih reeds r hr with hin | ⟨m', hm', hprops⟩
      · exact Or.inl hin
      · exact Or.inr ⟨m', List.mem_cons_of_mem _ hm', hprops⟩
    rw [if_neg h2] at hr
    by_cases h3 : spread < pyAbsQ (reedCents log2 primary m)
    · rw [if_pos h3] at hr
      rcases ih reeds r hr with hin | ⟨m', hm', hprops⟩
      · exact Or.inl hin
      · exact Or.inr ⟨m', List.mem_cons_of_mem _ hm', hprops⟩
    rw [if_neg h3] at hr
    rcases ih _ r hr with hin | ⟨m', hm', hprops⟩
    · rcases List.mem_append.mp hin with hin | hin
      · exact Or.inl hin
      · simp only [List.mem_singleton] at hin
        subst hin
        exact Or.inr ⟨m, List.mem_cons_self _ _,
          rfl, rfl, rfl, le_of_not_lt h2, le_of_not_lt h3⟩
    · exact Or.inr ⟨m', List.mem_cons_of_mem _ hm', hprops⟩

/-- C7: In every valid `AccordionResult`, the reeds are sorted ascending by
frequency, each reed's cents deviation is within `reed_spread_cents`, the
maximum each reed came from is within one semitone of the primary note, and
`beat_frequencies[i] = |reeds[i+1].frequency − reeds[i].frequency|` on the
sorted list. -/
theorem accordion_result_invariants (log2 : ℚ → ℚ) (max_reeds : ℕ)
    (spread : ℚ) (mres : MultiPitchResult)
    (hvalid : (accordionProcess log2 max_reeds spread mres).valid = true) :
    List.Pairwise (fun a b : ReedInfo => a.frequency ≤ b.frequency)
      (accordionProcess log2 max_reeds spread mres).reeds ∧
    (∀ rd ∈ (accordionProcess log2 max_reeds spread mres).reeds,
      |rd.cents| ≤ spread) ∧
    (∃ p rest, mres.maxima = p :: rest ∧
      ∀ rd ∈ (accordionProcess log2 max_reeds spread mres).reeds,
        ∃ m ∈ mres.maxima, rd.frequency = m.frequency ∧
          rd.magnitude = m.magnitude ∧ rd.cents = reedCents log2 p m ∧
          |m.note - p.note| ≤ 1) ∧
    ((accordionProcess log2 max_reeds spread mres).beat_frequencies.length =
      (accordionProcess log2 max_reeds spread mres).reeds.length - 1 ∧
     ∀ i < (accordionProcess log2 max_reeds spread mres).reeds.length - 1,
      (accordionProcess log2 max_reeds spread mres).beat_frequencies.getD i 0 =
        |((accordionProcess log2 max_reeds spread mres).reeds.getD (i + 1)
            default).frequency -
          ((accordionProcess log2 max_reeds spread mres).reeds.getD i
            default).frequency|) := by
  by_cases hpre : mres.valid = false ∨ mres.maxima = []
  · exfalso
    unfold accordionProcess at hvalid
    rw [if_pos hpre] at hvalid
    exact absurd hvalid (by simp)
  rcases hmx : mres.maxima with _ | ⟨p, rest⟩
  · exact absurd (Or.inr hmx) hpre
  by_cases hempty : groupReeds log2 max_reeds spread mres.maxima = []
  · exfalso
    unfold accordionProcess at hvalid
    rw [if_neg hpre, if_pos hempty] at hvalid
    exact absurd hvalid (by simp)
  have hempty' : groupReeds log2 max_reeds spread (p :: rest) ≠ [] := by
    rw [← hmx]; exact hempty
  have hres : accordionProcess log2 max_reeds spread mres =
      { valid := true, note_name := p.note_name, octave := p.octave,
        ref_frequency := p.ref_frequency,
        reeds := groupReeds log2 max_reeds spread (p :: rest),
        beat_frequencies :=
          (List.range ((groupReeds log2 max_reeds spread (p :: rest)).length - 1)).map
            (fun i => pyAbsQ
              (((groupReeds log2 max_reeds spread (p :: rest)).getD i default).frequency -
               ((groupReeds log2 max_reeds spread (p :: rest)).getD (i + 1) default).frequency)) } := by
    simp only [accordionProcess]
    rw [if_neg hpre, hmx, if_neg hempty']
  have hmem : ∀ rd ∈ groupReeds log2 max_reeds spread (p :: rest),
      ∃ m ∈ p :: rest,
        rd.frequency = m.frequency ∧ rd.magnitude = m.magnitude ∧
        rd.cents = reedCents log2 p m ∧
        pyAbsZ (m.note - p.note) ≤ 1 ∧
        pyAbsQ (reedCents log2 p m) ≤ spread := by
    intro rd hrd
    simp only [groupReeds] at hrd
    rw [List.mem_insertionSort] at hrd
    rcases groupReedsAux_mem log2 max_reeds spread p (p :: rest) [] rd hrd with
      hin | ⟨m, hm, hprops⟩
    · exact absurd hin (List.not_mem_nil rd)
    · exact ⟨m, hm, hprops⟩
  refine ⟨?_, ?_, ?_, ?_, ?_⟩
  · rw [hres]
    simp only [groupReeds]
    exact List.sorted_insertionSort reedLE _
  · rw [hres]
    intro rd hrd
    rcases hmem rd hrd with ⟨m, _, _, _, hc, _, hle⟩
    rw [hc, ← pyAbsQ_eq_abs]
    exact hle
  · refine ⟨p, rest, rfl, ?_⟩
    rw [hres]
    intro rd hrd
    rcases hmem rd hrd with ⟨m, hm, hf, hmag, hc, hnote, _⟩
    exact ⟨m, hm, hf, hmag, hc, by rw [← pyAbsZ_eq_abs]; exact hnote⟩
  · rw [hres]
    simp
  · rw [hres]
    intro i hi
    simp only [List.length_map, List.length_range] at hi ⊢
    rw [getD_map_range _ _ _ hi, pyAbsQ_eq_abs, abs_sub_comm]

theorem accordion_result_invariants_witness :
    (accordionProcess zeroLog 4 50 mresW).valid = true ∧
    (List.Pairwise (fun a b : ReedInfo => a.frequency ≤ b.frequency)
      (accordionProcess zeroLog 4 50 mresW).reeds ∧
    (∀ rd ∈ (accordionProcess zeroLog 4 50 mresW).reeds,
      |rd.cents| ≤ 50) ∧
    (∃ p rest, mresW.maxima = p :: rest ∧
      ∀ rd ∈ (accordionProcess zeroLog 4 50 mresW).reeds,
        ∃ m ∈ mresW.maxima, rd.frequency = m.frequency ∧
          rd.magnitude = m.magnitude ∧ rd.cents = reedCents zeroLog p m ∧
          |m.note - p.note| ≤ 1) ∧
    ((accordionProcess zeroLog 4 50 mresW).beat_frequencies.length =
      (accordionProcess zeroLog 4 50 mresW).reeds.length - 1 ∧
     ∀ i < (accordionProcess zeroLog 4 50 mresW).reeds.length - 1,
      (accordionProcess zeroLog 4 50 mresW).beat_frequencies.getD i 0 =
        |((accordionProcess zeroLog 4 50 mresW).reeds.getD (i + 1)
            default).frequency -
          ((accordionProcess zeroLog 4 50 mresW).reeds.getD i
            default).frequency|)) := by
  have hvalid : (accordionProcess zeroLog 4 50 mresW).valid = true := by
    norm_num [accordionProcess, groupReeds, groupReedsAux, reedCents, zeroLog,
      pyAbsZ, pyAbsQ, mresW, List.insertionSort, List.orderedInsert]
  exact ⟨hvalid, accordion_result_invariants zeroLog 4 50 mresW hvalid⟩

/-- The loop of `_group_reeds` adds nothing when every input maximum lies
outside the cents spread. -/
theorem groupReedsAux_all_excluded (log2 : ℚ → ℚ) (max_reeds : ℕ)
    (spread : ℚ) (primary : Maximum) :
    ∀ (ms : List Maximum) (reeds : List ReedInfo),
      (∀ m ∈ ms, spread < pyAbsQ (reedCents log2 primary m)) →
      groupReedsAux log2 max_reeds spread primary ms reeds = reeds := by
  intro ms
  induction ms with
  | nil => intro reeds _; rfl
  | cons m rest ih =>
    intro reeds hall
    simp only [groupReedsAux]
    by_cases h1 : max_reeds ≤ reeds.length
    · rw [if_pos h1]
    rw [if_neg h1]
    by_cases h2 : 1 < pyAbsZ (m.note - primary.note)
    · rw [if_pos h2]
      exact ih reeds (fun m' hm' => hall m' (List.mem_cons_of_mem _ hm'))
    rw [if_neg h2, if_pos (hall m (List.mem_cons_self _ _))]
    exact ih reeds (fun m' hm' => hall m' (List.mem_cons_of_mem _ hm'))

/-- C10: The reed grouper can exclude every maximum, the primary included:
if every maximum of a valid result lies more than `reed_spread_cents` from
the primary's reference frequency, the `AccordionResult` is invalid with an
empty reeds list (first conjunct); and a valid `AccordionResult` need not
contain the primary peak among its reeds (second conjunct). -/
theorem reed_grouper_can_exclude_all :
    (∀ (log2 : ℚ → ℚ) (max_reeds : ℕ) (spread : ℚ)
       (mres : MultiPitchResult) (p : Maximum) (rest : List Maximum),
      mres.maxima = p :: rest → mres.valid = true →
      (∀ m ∈ mres.maxima, spread < |reedCents log2 p m|) →
      (accordionProcess log2 max_reeds spread mres).valid = false ∧
      (accordionProcess log2 max_reeds spread mres).reeds = []) ∧
    (∃ (log2 : ℚ → ℚ) (max_reeds : ℕ) (spread : ℚ) (mres : MultiPitchResult),
      mres.valid = true ∧
      (accordionProcess log2 max_reeds spread mres).valid = true ∧
      mres.primary_frequency ∉
        ((accordionProcess log2 max_reeds spread mres).reeds.map
          ReedInfo.frequency)) := by
  constructor
  · intro log2 max_reeds spread mres p rest hmx hvalid hall
    have hpre : ¬ (mres.valid = false ∨ mres.maxima = []) := by
      rw [hvalid, hmx]
      simp
    have hgr : groupReeds log2 max_reeds spread mres.maxima = [] := by
      rw [hmx]
      simp only [groupReeds]
      rw [groupReedsAux_all_excluded log2 max_reeds spread p (p :: rest) []
        (fun m hm => by
          rw [pyAbsQ_eq_abs]
          exact hall m (by rw [hmx]; exact hm))]
      rfl
    have : accordionProcess log2 max_reeds spread mres = {} := by
      simp only [accordionProcess]
      rw [if_neg hpre, if_pos hgr]
    rw [this]
    exact ⟨rfl, rfl⟩
  · refine ⟨fun x => if x = 2 then 1 else 0, 4, 50,
      { maxima := [{ frequency := 2, ref_frequency := 1, note := 57, cents := 0,
                     note_name := "A", octave := 4, magnitude := 1 },
                   { frequency := 1, ref_frequency := 1, note := 57, cents := 0,
                     note_name := "A", octave := 4, magnitude := 1 }],
        primary_frequency := 2, primary_note := 57, primary_cents := 0,
        valid := true }, rfl, ?_, ?_⟩ <;>
      norm_num [accordionProcess, groupReeds, groupReedsAux, reedCents,
        pyAbsZ, pyAbsQ, List.insertionSort, List.orderedInsert,
        List.cons_ne_nil]

theorem reed_grouper_can_exclude_all_witness :
    (mresW.maxima = mW :: [] ∧ mresW.valid = true ∧
     (∀ m ∈ mresW.maxima, (50 : ℚ) < |reedCents (fun _ => 1) mW m|)) ∧
    ((accordionProcess (fun _ => 1) 4 50 mresW).valid = false ∧
     (accordionProcess (fun _ => 1) 4 50 mresW).reeds = []) := by
  have h1 : mresW.maxima = mW :: [] := rfl
  have h2 : mresW.valid = true := rfl
  have h3 : ∀ m ∈ mresW.maxima, (50 : ℚ) < |reedCents (fun _ => 1) mW m| := by
    intro m hm
    simp only [mresW, List.mem_singleton] at hm
    subst hm
    norm_num [reedCents, mW]
  exact ⟨⟨h1, h2, h3⟩,
    reed_grouper_can_exclude_all.1 (fun _ => 1) 4 50 mresW mW [] h1 h2 h3⟩

theorem reset_restores_fresh_witness :
    ((mkDetector SAMPLE_RATE 16 8 A4_REFERENCE).key = 0 ∧
     (mkDetector SAMPLE_RATE 16 8 A4_REFERENCE).buffer.length = 16 ∧
     (mkDetector SAMPLE_RATE 16 8 A4_REFERENCE).prev_phase.length = 16 * 7 / 16) ∧
    reset (mkDetector SAMPLE_RATE 16 8 A4_REFERENCE) =
      mkDetector SAMPLE_RATE 16 8 A4_REFERENCE :=
  ⟨⟨rfl, by decide, by decide⟩,
    reset_restores_fresh.1 _ SAMPLE_RATE 16 8 A4_REFERENCE rfl rfl rfl rfl rfl rfl
      rfl rfl rfl (by decide) (by decide)⟩

end CTuner
